import Mathlib

/-!
Shallow embedding of the rtsp-monitor pipeline (src/app.py) in Lean 4.

Modelling conventions:
- A decoded video frame is opaque data; we model it as a natural number.
- Side effects of the prober (opening the capture session, each frame read,
  the image write, releasing the capture session) are recorded in an
  explicit event trace.
- The environment of one probe (the outcomes of the cap.read calls that
  happen before the wall-clock deadline, the strftime timestamp, the
  outcome of the optional requests.head call) is a ProbeEnv record.
- Python strings are Lean String; the Python str.isalnum test is modelled
  by Char.isAlphanum; dict.get is an association-list lookup returning
  Option String; Python truthiness of an optional string (None and the
  empty string are falsy) is pyFalsy / pyOrOpt / pyOrStr.
- The fallible parts of PDF rendering are modelled in Except over the
  exception types the Python code can catch.
-/

/-- Opaque decoded frame data. -/
abbrev Frame := Nat

/-- Outcome of one cap.read() call: the returned flag and the frame,
which may be None. -/
structure ReadResult where
  ret : Bool
  frame : Option Frame
deriving Repr, DecidableEq

/-- Outcome of requests.head: either a response with a status code, or a
requests.exceptions.RequestException carrying an error string. -/
inductive HttpResult where
  | response (statusCode : Nat)
  | requestException (err : String)
deriving Repr, DecidableEq

/-- Environment of a single probe: the read outcomes available before the
wall-clock deadline expires (list exhaustion models the deadline), the
strftime "%Y%m%d_%H%M%S" timestamp at capture time, and the outcome of the
requests.head call should it be made. -/
structure ProbeEnv where
  reads : List ReadResult
  timestamp : String
  httpHead : HttpResult
deriving Repr, DecidableEq

/-- Observable side effects of the prober. -/
inductive Event where
  | openCapture (url : String)
  | read
  | writeImage (path : String)
  | release
deriving Repr, DecidableEq

/-- Python truthiness for an optional string: None and "" are falsy. -/
def pyFalsy (o : Option String) : Prop := o = none ∨ o = some ""

instance (o : Option String) : Decidable (pyFalsy o) := by
  unfold pyFalsy; infer_instance

/-- Python a or b on optional strings. -/
def pyOrOpt (a b : Option String) : Option String :=
  match a with
  | some s => if s = "" then b else some s
  | none => b

/-- Python a or d where d is a plain (truthy) string default. -/
def pyOrStr (a : Option String) (d : String) : String :=
  match a with
  | some s => if s = "" then d else s
  | none => d

/-- A CSV record as produced by csv.DictReader: header name to cell value.
A missing key models both an absent column and a None cell. -/
abbrev Record := List (String × String)

/-- dict.get: first binding of the key, None when absent. -/
def Record.get (r : Record) (k : String) : Option String :=
  (r.find? (fun p => p.1 = k)).map (·.2)

/-- Model of str.isalnum (ASCII fragment). -/
def pyIsAlnum (c : Char) : Bool := c.isAlphanum

/-- One character of the sanitizing pass in test_rtsp_stream:
c if c.isalnum() or c in (" ", "_") else "_". -/
def keepOrUnderscore (c : Char) : Char :=
  if pyIsAlnum c || c = ' ' || c = '_' then c else '_'

/-- Python str.strip() on the intermediate string; at that point the only
whitespace characters it can contain are plain spaces. -/
def stripSpaces (l : List Char) : List Char :=
  ((l.dropWhile (· = ' ')).reverse.dropWhile (· = ' ')).reverse

/-- Space to underscore, the final .replace(" ", "_") step. -/
def spaceToUnderscore (c : Char) : Char := if c = ' ' then '_' else c

/-- The sanitized camera name computed in test_rtsp_stream (app.py lines
91 to 95): replace every character that is not alphanumeric, space or
underscore by an underscore, strip leading and trailing spaces, then turn
the remaining spaces into underscores. -/
def safeName (cameraName : String) : String :=
  ⟨(stripSpaces (cameraName.data.map keepOrUnderscore)).map spaceToUnderscore⟩

/-- get_http_error_details (app.py lines 47 to 63): issue a HEAD request
and describe its outcome. -/
def get_http_error_details (hr : HttpResult) : String :=
  match hr with
  | .response code =>
      let details := " HTTP status code: " ++ toString code ++ "."
      if code = 404 then details ++ " Not Found (404)."
      else if code = 401 then details ++ " Unauthorized (401)."
      else details
  | .requestException e =>
      " Additionally, HTTP HEAD request failed with error: " ++ e

/-- The polling loop of test_rtsp_stream: run cap.read() until a read
returns ret and a non-None frame, or the deadline (list exhaustion) hits.
Returns the captured frame, when any, and the trace of read events. -/
def runReads : List ReadResult → Option Frame × List Event
  | [] => (none, [])
  | r :: rs =>
      if r.ret && r.frame.isSome then (r.frame, [Event.read])
      else
        let rest := runReads rs
        (rest.1, Event.read :: rest.2)

/-- Result of test_rtsp_stream: the returned triple plus the event trace. -/
structure ProbeResult where
  ok : Bool
  screenshot : Option String
  message : String
  trace : List Event
deriving Repr, DecidableEq

/-- The scheme test of app.py line 104: rtsp_url.lower().startswith("http"),
stated over the character list (str.lower is modelled by Char.toLower). -/
def lowerStartsWithHttp (url : String) : Bool :=
  List.isPrefixOf "http".data (url.data.map Char.toLower)

/-- Path join; models os.path.join for a directory without trailing
separator. -/
def pathJoin (dir name : String) : String := dir ++ "/" ++ name

/-- test_rtsp_stream (app.py lines 66 to 110): open the capture, poll for
a frame; on success write the screenshot and return the path, on failure
build the diagnostic message; release the capture on both paths. -/
def test_rtsp_stream (camera_name rtsp_url screenshot_dir : String)
    (env : ProbeEnv) : ProbeResult :=
  let polled := runReads env.reads
  match polled.1 with
  | some _ =>
      let screenshot_file :=
        pathJoin screenshot_dir (safeName camera_name ++ "_" ++ env.timestamp ++ ".jpg")
      { ok := true
        screenshot := some screenshot_file
        message := "Stream opened successfully and screenshot captured."
        trace := Event.openCapture rtsp_url ::
          (polled.2 ++ [Event.writeImage screenshot_file, Event.release]) }
  | none =>
      let base := "Failed to capture a frame from the stream."
      let error_message :=
        if lowerStartsWithHttp rtsp_url then
          base ++ get_http_error_details env.httpHead
        else
          base ++ " (No additional HTTP error details available for non-HTTP URLs)"
      { ok := false
        screenshot := none
        message := error_message
        trace := Event.openCapture rtsp_url :: (polled.2 ++ [Event.release]) }

/-- A normalized report row (the dictionaries appended in
process_csv_rows). -/
structure ReportRow where
  cameraName : String
  providedURL : String
  status : String
  notes : String
  screenshot : Option String
deriving Repr, DecidableEq

/-- Camera-name resolution of app.py lines 162 to 164:
row.get("Camera Name") or row.get("Client Camera Name") or
"Unnamed_Camera". -/
def resolveName (r : Record) : String :=
  pyOrStr (pyOrOpt (Record.get r "Camera Name") (Record.get r "Client Camera Name"))
    "Unnamed_Camera"

/-- Address resolution of app.py line 165 combined with the truthiness
test of line 166: row.get("RTSP URL") or row.get("URL"), with a falsy
result (None or empty) meaning no address. -/
def resolveUrl (r : Record) : Option String :=
  match pyOrOpt (Record.get r "RTSP URL") (Record.get r "URL") with
  | some s => if s = "" then none else some s
  | none => none

/-- Processing of one CSV record (the loop body of process_csv_rows,
app.py lines 162 to 187): the produced report row, paired with the event
trace of the probe (empty when no probe is attempted). -/
def processRecord (screenshots_dir : String) (env : ProbeEnv) (record : Record) :
    ReportRow × List Event :=
  let camera_name := resolveName record
  match resolveUrl record with
  | none =>
      ({ cameraName := camera_name, providedURL := "", status := "Not Valid",
         notes := "No URL provided.", screenshot := none }, [])
  | some rtsp_url =>
      let r := test_rtsp_stream camera_name rtsp_url screenshots_dir env
      ({ cameraName := camera_name
         providedURL := rtsp_url
         status := if r.ok then "Valid" else "Not Valid"
         notes := if r.ok then r.message else "Error: " ++ r.message
         screenshot := if r.ok then r.screenshot else none }, r.trace)

/-- The early-stop test of app.py line 160:
max_streams is not None and count >= max_streams. -/
def stopCond (max_streams : Option Int) (count : Nat) : Bool :=
  match max_streams with
  | none => false
  | some m => (count : Int) ≥ m

/-- The loop of process_csv_rows over the remaining records, carrying the
running count. -/
def processCsvRowsAux (screenshots_dir : String) (envs : Nat → ProbeEnv)
    (max_streams : Option Int) : List Record → Nat → List ReportRow
  | [], _ => []
  | record :: rest, count =>
      if stopCond max_streams count then []
      else
        (processRecord screenshots_dir (envs count) record).1 ::
          processCsvRowsAux screenshots_dir envs max_streams rest (count + 1)

/-- process_csv_rows (app.py lines 146 to 188): process the parsed records
in file order, stopping once count reaches max_streams when a limit is
given. The probe environment of the record at position i is envs i. -/
def process_csv_rows (records : List Record) (screenshots_dir : String)
    (envs : Nat → ProbeEnv) (max_streams : Option Int) : List ReportRow :=
  processCsvRowsAux screenshots_dir envs max_streams records 0

/-- Python exceptions relevant to pdf.image: the except clause of
generate_pdf_report catches RuntimeError and OSError only (a missing
screenshot file raises FileNotFoundError, an OSError subclass; a corrupt
image makes fpdf raise RuntimeError). -/
inductive PyExc where
  | runtimeError (msg : String)
  | osError (msg : String)
  | otherError (msg : String)
deriving Repr, DecidableEq

/-- Items of the rendered document, in layout order. -/
inductive DocItem where
  | textCell (s : String)
  | image (path : String)
  | hline
deriving Repr, DecidableEq

/-- The screenshot block of one row in generate_pdf_report (app.py lines
133 to 140): embed the image when the Screenshot entry is truthy, catching
RuntimeError and OSError and degrading to a diagnostic text cell; other
exceptions propagate. -/
def renderScreenshot (embed : String → Except PyExc Unit) (row : ReportRow) :
    Except PyExc (List DocItem) :=
  match row.screenshot with
  | none => .ok []
  | some p =>
      if p = "" then .ok []
      else
        match embed p with
        | .ok _ => .ok [DocItem.image p]
        | .error (.runtimeError m) =>
            .ok [DocItem.textCell ("Error embedding screenshot: " ++ m)]
        | .error (.osError m) =>
            .ok [DocItem.textCell ("Error embedding screenshot: " ++ m)]
        | .error e => .error e

/-- One row of the PDF body (app.py lines 125 to 142): the four text
cells, the screenshot block, and the separating horizontal rule. -/
def renderPdfRow (embed : String → Except PyExc Unit) (row : ReportRow) :
    Except PyExc (List DocItem) := do
  let shot ← renderScreenshot embed row
  pure ([DocItem.textCell ("Camera Name: " ++ row.cameraName),
         DocItem.textCell ("Provided URL: " ++ row.providedURL),
         DocItem.textCell ("Status: " ++ row.status),
         DocItem.textCell ("Notes: " ++ row.notes)] ++ shot ++ [DocItem.hline])

/-- The body loop of generate_pdf_report. -/
def renderPdfRows (embed : String → Except PyExc Unit) :
    List ReportRow → Except PyExc (List DocItem)
  | [] => .ok []
  | row :: rest => do
      let items ← renderPdfRow embed row
      let others ← renderPdfRows embed rest
      pure (items ++ others)

/-- generate_pdf_report (app.py lines 113 to 143): title cell, then the
per-row blocks. The embed argument models pdf.image on the given path. -/
def generate_pdf_report (embed : String → Except PyExc Unit)
    (report_rows : List ReportRow) : Except PyExc (List DocItem) := do
  let body ← renderPdfRows embed report_rows
  pure (DocItem.textCell "Camera Connection Status Report" :: body)

/-- The four-line block plus separator written for one row of the text
report (app.py lines 208 to 212). -/
def textRowBlock (row : ReportRow) : String :=
  "Camera Name: " ++ row.cameraName ++ "\n" ++
  "Provided URL: " ++ row.providedURL ++ "\n" ++
  "Status: " ++ row.status ++ "\n" ++
  "Notes: " ++ row.notes ++ "\n" ++
  String.mk (List.replicate 40 '-') ++ "\n"

/-- The banner written before the rows (app.py lines 205 to 206). -/
def textBanner : String :=
  "Camera Connection Status Report\n" ++ String.mk (List.replicate 40 '=') ++ "\n\n"

/-- The text renderer of process_camera_list (app.py lines 203 to 212):
sequential writes into the report file, modelled as a fold accumulating
the written bytes. -/
def renderTextReport (report_rows : List ReportRow) : String :=
  report_rows.foldl (fun acc row => acc ++ textRowBlock row) textBanner

/-- The number of rows the code produces: all records when no limit is
given, otherwise at most the nonnegative part of the limit. -/
def codeRowCount (max_streams : Option Int) (n : Nat) : Nat :=
  match max_streams with
  | none => n
  | some m => min n m.toNat

/-- Substring containment on strings. -/
def strHasSub (s sub : String) : Prop := sub.data <:+: s.data

instance (s sub : String) : Decidable (strHasSub s sub) := by
  unfold strHasSub; infer_instance

/-- Modelled from the claim wording of C2 only, for comparison with the
code: min(record_count, max_rows or record_count), with a limit that is
absent or at most zero meaning all records. -/
def specRowCountC2 (ms : Option Int) (n : Nat) : Nat :=
  match ms with
  | none => n
  | some m => if m ≤ 0 then n else min n m.toNat

/-- The body of the text report as the spec describes it: the block of
each row, in order. -/
def textBody : List ReportRow → String
  | [] => ""
  | row :: rest => textRowBlock row ++ textBody rest

/-- Modelled from the claim wording of C7 only, for comparison with the
code: replace every character that is not alphanumeric, space or
underscore by an underscore, then convert spaces to underscores (no
trimming step). -/
def specSanitizeC7 (cameraName : String) : String :=
  ⟨(cameraName.data.map keepOrUnderscore).map spaceToUnderscore⟩

/-- The sanitizer as the amended claim describes it: replace every
character that is not alphanumeric, space or underscore by an underscore,
trim leading and trailing spaces, then convert spaces to underscores. -/
def amendedSanitizeC7 (cameraName : String) : String :=
  ⟨(stripSpaces (cameraName.data.map keepOrUnderscore)).map spaceToUnderscore⟩

/-! ### Helper lemmas -/

theorem mem_stripSpaces {c : Char} {l : List Char} (h : c ∈ stripSpaces l) :
    c ∈ l := by
  unfold stripSpaces at h
  rw [List.mem_reverse] at h
  have h2 := (List.dropWhile_sublist _).mem h
  rw [List.mem_reverse] at h2
  exact (List.dropWhile_sublist _).mem h2

theorem safeName_chars (name : String) :
    ∀ c ∈ (safeName name).data, pyIsAlnum c = true ∨ c = '_' := by
  intro c hc
  have hc' : c ∈ (stripSpaces (name.data.map keepOrUnderscore)).map spaceToUnderscore := hc
  rw [List.mem_map] at hc'
  obtain ⟨a, ha, hac⟩ := hc'
  have ha2 : a ∈ name.data.map keepOrUnderscore := mem_stripSpaces ha
  rw [List.mem_map] at ha2
  obtain ⟨b, _, hba⟩ := ha2
  subst hac
  unfold keepOrUnderscore at hba
  by_cases hcond : (pyIsAlnum b || b = ' ' || b = '_') = true
  · rw [if_pos hcond] at hba
    subst hba
    simp only [Bool.or_eq_true, decide_eq_true_eq] at hcond
    unfold spaceToUnderscore
    by_cases hsp : b = ' '
    · right; rw [if_pos hsp]
    · rw [if_neg hsp]
      rcases hcond with (halnum | hsp') | hund
      · exact Or.inl halnum
      · exact absurd hsp' hsp
      · exact Or.inr hund
  · rw [if_neg hcond] at hba
    subst hba
    right
    unfold spaceToUnderscore
    rw [if_neg (by decide : ¬ ('_' = ' '))]

theorem test_rtsp_stream_success {env : ProbeEnv} {f : Frame}
    (h : (runReads env.reads).1 = some f) (n u d : String) :
    test_rtsp_stream n u d env =
      { ok := true
        screenshot := some (pathJoin d (safeName n ++ "_" ++ env.timestamp ++ ".jpg"))
        message := "Stream opened successfully and screenshot captured."
        trace := Event.openCapture u ::
          ((runReads env.reads).2 ++
            [Event.writeImage (pathJoin d (safeName n ++ "_" ++ env.timestamp ++ ".jpg")),
             Event.release]) } := by
  simp only [test_rtsp_stream, h]

theorem test_rtsp_stream_failure {env : ProbeEnv}
    (h : (runReads env.reads).1 = none) (n u d : String) :
    test_rtsp_stream n u d env =
      { ok := false
        screenshot := none
        message := "Failed to capture a frame from the stream." ++
          (if lowerStartsWithHttp u then get_http_error_details env.httpHead
           else " (No additional HTTP error details available for non-HTTP URLs)")
        trace := Event.openCapture u :: ((runReads env.reads).2 ++ [Event.release]) } := by
  by_cases hc : lowerStartsWithHttp u <;>
    simp only [test_rtsp_stream, h, hc, if_pos, if_neg, Bool.false_eq_true,
      not_false_eq_true, reduceIte]

theorem processRecord_status_iff_screenshot (dir : String) (env : ProbeEnv)
    (record : Record) :
    ((processRecord dir env record).1.status = "Valid" ↔
      (processRecord dir env record).1.screenshot ≠ none) := by
  cases hu : resolveUrl record with
  | none =>
      simp only [processRecord, hu]
      constructor
      · intro h; exact absurd h (by decide)
      · intro h; exact absurd rfl h
  | some url =>
      cases hr : (runReads env.reads).1 with
      | none =>
          simp only [processRecord, hu, test_rtsp_stream_failure hr]
          constructor
          · intro h; exact absurd h (by decide)
          · intro h; exact absurd rfl h
      | some f =>
          simp only [processRecord, hu, test_rtsp_stream_success hr]
          constructor
          · intro _; simp
          · intro _; rfl

theorem mem_processCsvRowsAux {dir : String} {envs : Nat → ProbeEnv}
    {ms : Option Int} :
    ∀ {records : List Record} {count : Nat} {row : ReportRow},
      row ∈ processCsvRowsAux dir envs ms records count →
      ∃ record c, row = (processRecord dir (envs c) record).1
  | [], _, _, h => absurd h (List.not_mem_nil _)
  | record :: rest, count, row, h => by
      rw [processCsvRowsAux] at h
      by_cases hs : stopCond ms count
      · rw [if_pos hs] at h
        exact absurd h (List.not_mem_nil _)
      · rw [if_neg hs] at h
        rcases List.mem_cons.mp h with heq | hmem
        · exact ⟨record, count, heq⟩
        · exact mem_processCsvRowsAux hmem

theorem processCsvRowsAux_length (dir : String) (envs : Nat → ProbeEnv)
    (ms : Option Int) :
    ∀ (records : List Record) (count : Nat),
      (processCsvRowsAux dir envs ms records count).length =
        match ms with
        | none => records.length
        | some m => min records.length (m.toNat - count)
  | [], count => by cases ms <;> simp [processCsvRowsAux]
  | record :: rest, count => by
      rw [processCsvRowsAux]
      cases ms with
      | none =>
          rw [if_neg (by simp [stopCond])]
          simp [processCsvRowsAux_length dir envs none rest (count + 1)]
      | some m =>
          by_cases hs : stopCond (some m) count
          · rw [if_pos hs]
            simp only [stopCond, ge_iff_le, decide_eq_true_eq] at hs
            simp only [List.length_nil, List.length_cons]
            omega
          · rw [if_neg hs]
            simp only [stopCond, ge_iff_le, decide_eq_true_eq] at hs
            simp only [List.length_cons,
              processCsvRowsAux_length dir envs (some m) rest (count + 1)]
            omega

theorem processCsvRowsAux_getElem (dir : String) (envs : Nat → ProbeEnv)
    (ms : Option Int) :
    ∀ (records : List Record) (count i : Nat),
      i < (processCsvRowsAux dir envs ms records count).length →
      (processCsvRowsAux dir envs ms records count)[i]? =
        (records[i]?).map (fun r => (processRecord dir (envs (count + i)) r).1)
  | [], count, i, h => by simp [processCsvRowsAux] at h
  | record :: rest, count, i, h => by
      rw [processCsvRowsAux] at h ⊢
      by_cases hs : stopCond ms count
      · rw [if_pos hs] at h; simp at h
      · rw [if_neg hs] at h ⊢
        cases i with
        | zero => simp
        | succ j =>
            simp only [List.length_cons, Nat.succ_lt_succ_iff] at h
            simp only [List.getElem?_cons_succ]
            have harith : count + 1 + j = count + (j + 1) := by omega
            rw [processCsvRowsAux_getElem dir envs ms rest (count + 1) j h, harith]

/-! ### Claim C2 -/

/-- Claim C2, counterexample: with one record and a limit of zero the code
produces zero rows, while the claimed formula demands that all records be
processed when the limit is at most zero. -/
theorem C2_counterexample :
    (process_csv_rows [[("RTSP URL", "rtsp://x")]] "d"
        (fun _ => ⟨[], "t", HttpResult.response 200⟩) (some 0)).length ≠
      specRowCountC2 (some 0) ([[("RTSP URL", "rtsp://x")]] : List Record).length ∧
    (process_csv_rows [[("RTSP URL", "rtsp://x")]] "d"
        (fun _ => ⟨[], "t", HttpResult.response 200⟩) (some 0)).length = 0 ∧
    specRowCountC2 (some 0) 1 = 1 := by
  refine ⟨?_, by decide, by decide⟩
  decide

/-- Claim C2, amended: process_csv_rows produces exactly
min(record_count, toNat max_rows) rows when a limit is given — so a limit
that is at most zero produces zero rows, not all — and record_count rows
when the limit is absent; records are consumed in file order, the row at
position i coming from the record at position i. -/
theorem C2_amended_row_count (records : List Record) (dir : String)
    (envs : Nat → ProbeEnv) (ms : Option Int) :
    (process_csv_rows records dir envs ms).length = codeRowCount ms records.length ∧
    ∀ i, i < codeRowCount ms records.length →
      (process_csv_rows records dir envs ms)[i]? =
        (records[i]?).map (fun r => (processRecord dir (envs i) r).1) := by
  have hlen : (process_csv_rows records dir envs ms).length =
      codeRowCount ms records.length := by
    rw [process_csv_rows, processCsvRowsAux_length]
    cases ms <;> simp [codeRowCount]
  refine ⟨hlen, fun i hi => ?_⟩
  have h0 := processCsvRowsAux_getElem dir envs ms records 0 i
    (by rw [← process_csv_rows, hlen]; exact hi)
  rw [process_csv_rows, h0, Nat.zero_add]

/-- Claim C2, witness: two records with a limit of one produce exactly one
row, which is the processing of the first record. -/
theorem C2_witness :
    (process_csv_rows [[("RTSP URL", "rtsp://a")], [("RTSP URL", "rtsp://b")]] "d"
        (fun _ => ⟨[], "t", HttpResult.response 200⟩) (some 1)).length =
      codeRowCount (some 1)
        ([[("RTSP URL", "rtsp://a")], [("RTSP URL", "rtsp://b")]] : List Record).length ∧
    (process_csv_rows [[("RTSP URL", "rtsp://a")], [("RTSP URL", "rtsp://b")]] "d"
        (fun _ => ⟨[], "t", HttpResult.response 200⟩) (some 1))[0]? =
      (([[("RTSP URL", "rtsp://a")], [("RTSP URL", "rtsp://b")]] : List Record)[0]?).map
        (fun r => (processRecord "d" ((fun _ => (⟨[], "t", HttpResult.response 200⟩ : ProbeEnv)) 0) r).1) :=
  ⟨(C2_amended_row_count _ "d" _ (some 1)).1,
   (C2_amended_row_count _ "d" _ (some 1)).2 0 (by decide)⟩

/-! ### Claim C1 -/

/-- Claim C1: in every row produced by process_csv_rows, the screenshot
reference is non-None exactly when the status is Valid. -/
theorem C1_screenshot_iff_valid (records : List Record) (dir : String)
    (envs : Nat → ProbeEnv) (ms : Option Int) (row : ReportRow)
    (h : row ∈ process_csv_rows records dir envs ms) :
    row.status = "Valid" ↔ row.screenshot ≠ none := by
  obtain ⟨record, c, rfl⟩ := mem_processCsvRowsAux h
  exact processRecord_status_iff_screenshot dir (envs c) record

/-- Claim C1, witness: a concrete successful probe produces a Valid row
holding a screenshot path, and the equivalence holds at it. -/
theorem C1_witness :
    (⟨"Unnamed_Camera", "rtsp://x", "Valid",
      "Stream opened successfully and screenshot captured.",
      some "shots/Unnamed_Camera_t.jpg"⟩ : ReportRow) ∈
        process_csv_rows [[("RTSP URL", "rtsp://x")]] "shots"
          (fun _ => ⟨[⟨true, some 1⟩], "t", HttpResult.response 200⟩) none ∧
    ((⟨"Unnamed_Camera", "rtsp://x", "Valid",
      "Stream opened successfully and screenshot captured.",
      some "shots/Unnamed_Camera_t.jpg"⟩ : ReportRow).status = "Valid" ↔
     (⟨"Unnamed_Camera", "rtsp://x", "Valid",
      "Stream opened successfully and screenshot captured.",
      some "shots/Unnamed_Camera_t.jpg"⟩ : ReportRow).screenshot ≠ none) :=
  ⟨by decide,
   C1_screenshot_iff_valid [[("RTSP URL", "rtsp://x")]] "shots"
     (fun _ => ⟨[⟨true, some 1⟩], "t", HttpResult.response 200⟩) none _ (by decide)⟩

theorem pyOrOpt_falsy {a : Option String} (h : pyFalsy a) (b : Option String) :
    pyOrOpt a b = b := by
  rcases h with rfl | rfl <;> simp [pyOrOpt]

theorem pyOrStr_falsy {a : Option String} (h : pyFalsy a) (d : String) :
    pyOrStr a d = d := by
  rcases h with rfl | rfl <;> simp [pyOrStr]

theorem resolveUrl_falsy {record : Record}
    (ha1 : pyFalsy (Record.get record "RTSP URL"))
    (ha2 : pyFalsy (Record.get record "URL")) :
    resolveUrl record = none := by
  rw [resolveUrl, pyOrOpt_falsy ha1]
  rcases ha2 with h | h <;> simp [h]

/-! ### Claim C3 -/

/-- Claim C3: a record in which neither address field nor any name field
resolves (each one absent or empty) yields exactly one row, carrying the
placeholder camera name, an empty provided address, a not-valid status and
the fixed missing-address note; the probe is never attempted (no side
effects are traced). -/
theorem C3_missing_address_row (dir : String) (env : ProbeEnv)
    (envs : Nat → ProbeEnv) (record : Record)
    (hn1 : pyFalsy (Record.get record "Camera Name"))
    (hn2 : pyFalsy (Record.get record "Client Camera Name"))
    (ha1 : pyFalsy (Record.get record "RTSP URL"))
    (ha2 : pyFalsy (Record.get record "URL")) :
    processRecord dir env record =
      ({ cameraName := "Unnamed_Camera", providedURL := "", status := "Not Valid",
         notes := "No URL provided.", screenshot := none }, []) ∧
    process_csv_rows [record] dir envs none =
      [{ cameraName := "Unnamed_Camera", providedURL := "", status := "Not Valid",
         notes := "No URL provided.", screenshot := none }] := by
  have hname : resolveName record = "Unnamed_Camera" := by
    rw [resolveName, pyOrOpt_falsy hn1, pyOrStr_falsy hn2]
  have hrow : ∀ e : ProbeEnv, processRecord dir e record =
      ({ cameraName := "Unnamed_Camera", providedURL := "", status := "Not Valid",
         notes := "No URL provided.", screenshot := none }, []) := by
    intro e
    simp [processRecord, resolveUrl_falsy ha1 ha2, hname]
  refine ⟨hrow env, ?_⟩
  rw [process_csv_rows, processCsvRowsAux, if_neg (by simp [stopCond]),
    processCsvRowsAux, hrow (envs 0)]

/-- Claim C3, witness: the empty record resolves nothing and produces
exactly the placeholder row. -/
theorem C3_witness :
    processRecord "d" ⟨[], "t", HttpResult.response 200⟩ ([] : Record) =
      ({ cameraName := "Unnamed_Camera", providedURL := "", status := "Not Valid",
         notes := "No URL provided.", screenshot := none }, []) ∧
    process_csv_rows [([] : Record)] "d" (fun _ => ⟨[], "t", HttpResult.response 200⟩) none =
      [{ cameraName := "Unnamed_Camera", providedURL := "", status := "Not Valid",
         notes := "No URL provided.", screenshot := none }] :=
  C3_missing_address_row "d" ⟨[], "t", HttpResult.response 200⟩
    (fun _ => ⟨[], "t", HttpResult.response 200⟩) []
    (by decide) (by decide) (by decide) (by decide)

/-! ### Claim C9 -/

/-- Claim C9: empty-string field values behave like absent fields: a
Camera Name bound to the empty string makes the name resolve from Client
Camera Name (with the placeholder as final default), and empty strings in
both RTSP URL and URL route the record to the missing-address handling
with no probe attempted. -/
theorem C9_empty_is_absent (dir : String) (env : ProbeEnv) (record : Record) :
    (Record.get record "Camera Name" = some "" →
      resolveName record =
        pyOrStr (Record.get record "Client Camera Name") "Unnamed_Camera") ∧
    (Record.get record "RTSP URL" = some "" → Record.get record "URL" = some "" →
      processRecord dir env record =
        ({ cameraName := resolveName record, providedURL := "", status := "Not Valid",
           notes := "No URL provided.", screenshot := none }, [])) := by
  constructor
  · intro h
    rw [resolveName, pyOrOpt_falsy (Or.inr h)]
  · intro h1 h2
    simp [processRecord, resolveUrl_falsy (Or.inr h1) (Or.inr h2)]

/-- Claim C9, witness: a record with empty Camera Name and empty address
fields takes its name from Client Camera Name and is routed to the
missing-address handling. -/
theorem C9_witness :
    resolveName [("Camera Name", ""), ("Client Camera Name", "Dock"),
        ("RTSP URL", ""), ("URL", "")] =
      pyOrStr (Record.get [("Camera Name", ""), ("Client Camera Name", "Dock"),
        ("RTSP URL", ""), ("URL", "")] "Client Camera Name") "Unnamed_Camera" ∧
    processRecord "d" ⟨[], "t", HttpResult.response 200⟩
        [("Camera Name", ""), ("Client Camera Name", "Dock"),
         ("RTSP URL", ""), ("URL", "")] =
      ({ cameraName := resolveName [("Camera Name", ""), ("Client Camera Name", "Dock"),
           ("RTSP URL", ""), ("URL", "")],
         providedURL := "", status := "Not Valid",
         notes := "No URL provided.", screenshot := none }, []) :=
  ⟨(C9_empty_is_absent "d" ⟨[], "t", HttpResult.response 200⟩ _).1 (by decide),
   (C9_empty_is_absent "d" ⟨[], "t", HttpResult.response 200⟩ _).2 (by decide) (by decide)⟩

/-! ### Claim C10 -/

/-- Claim C10: when a record with a resolvable address fails its probe,
the notes of the produced row are exactly the probe failure message with
the Error prefix prepended; rows of successful probes and missing-address
rows never start with that prefix. -/
theorem C10_error_note (dir : String) (env : ProbeEnv) (record : Record) :
    (∀ url, resolveUrl record = some url → (runReads env.reads).1 = none →
      (processRecord dir env record).1.notes =
        "Error: " ++ (test_rtsp_stream (resolveName record) url dir env).message) ∧
    (∀ url f, resolveUrl record = some url → (runReads env.reads).1 = some f →
      ¬ ("Error: ".data <+: (processRecord dir env record).1.notes.data)) ∧
    (resolveUrl record = none →
      ¬ ("Error: ".data <+: (processRecord dir env record).1.notes.data)) := by
  refine ⟨?_, ?_, ?_⟩
  · intro url hurl hfail
    simp only [processRecord, hurl]
    rw [test_rtsp_stream_failure hfail]
    simp
  · intro url f hurl hsucc
    simp only [processRecord, hurl]
    rw [test_rtsp_stream_success hsucc]
    simp only [if_pos]
    decide
  · intro hurl
    simp only [processRecord, hurl]
    decide

/-- Claim C10, witness: a failing probe on a concrete record yields the
Error-prefixed note, and a concrete missing-address row does not start
with the prefix. -/
theorem C10_witness :
    (processRecord "d" ⟨[], "t", HttpResult.response 200⟩
        [("RTSP URL", "rtsp://cam")]).1.notes =
      "Error: " ++ (test_rtsp_stream (resolveName [("RTSP URL", "rtsp://cam")])
        "rtsp://cam" "d" ⟨[], "t", HttpResult.response 200⟩).message ∧
    ¬ ("Error: ".data <+:
        (processRecord "d" ⟨[], "t", HttpResult.response 200⟩ ([] : Record)).1.notes.data) :=
  ⟨(C10_error_note "d" ⟨[], "t", HttpResult.response 200⟩ [("RTSP URL", "rtsp://cam")]).1
      "rtsp://cam" (by decide) rfl,
   (C10_error_note "d" ⟨[], "t", HttpResult.response 200⟩ ([] : Record)).2.2 (by decide)⟩

/-! ### Claim C8 -/

/-- Claim C8: on every execution path of test_rtsp_stream the last traced
side effect before returning is the release of the capture resource. -/
theorem C8_release_last (n u d : String) (env : ProbeEnv) :
    (test_rtsp_stream n u d env).trace.getLast? = some Event.release := by
  cases hr : (runReads env.reads).1 with
  | none =>
      rw [test_rtsp_stream_failure hr]
      rw [show Event.openCapture u :: ((runReads env.reads).2 ++ [Event.release]) =
        (Event.openCapture u :: (runReads env.reads).2) ++ [Event.release] from rfl]
      exact List.getLast?_concat _
  | some f =>
      rw [test_rtsp_stream_success hr]
      rw [show Event.openCapture u :: ((runReads env.reads).2 ++
            [Event.writeImage (pathJoin d (safeName n ++ "_" ++ env.timestamp ++ ".jpg")),
             Event.release]) =
        (Event.openCapture u :: ((runReads env.reads).2 ++
            [Event.writeImage (pathJoin d (safeName n ++ "_" ++ env.timestamp ++ ".jpg"))])) ++
          [Event.release] by simp]
      exact List.getLast?_concat _

theorem strHasSub_suffix (a sub : String) : strHasSub (a ++ sub) sub := by
  unfold strHasSub
  rw [String.data_append]
  exact (List.suffix_append _ _).isInfix

theorem strHasSub_self (s : String) : strHasSub s s := List.infix_refl _

theorem strHasSub_append_left (a : String) {s sub : String} (h : strHasSub s sub) :
    strHasSub (a ++ s) sub := by
  unfold strHasSub at h ⊢
  rw [String.data_append]
  exact h.trans (List.suffix_append _ _).isInfix

/-! ### Claim C5 -/

/-- Claim C5: the text report is a pure deterministic function of the
ordered row sequence; it equals the fixed banner followed by the four-line
block and separator line of each row in order, so equal row sequences give
byte-identical reports. -/
theorem C5_text_report_shape (report_rows : List ReportRow) :
    renderTextReport report_rows = textBanner ++ textBody report_rows ∧
    ∀ other : List ReportRow, other = report_rows →
      renderTextReport other = renderTextReport report_rows := by
  constructor
  · have general : ∀ (l : List ReportRow) (init : String),
        l.foldl (fun acc row => acc ++ textRowBlock row) init = init ++ textBody l := by
      intro l
      induction l with
      | nil => intro init; simp [textBody]
      | cons r rs ih =>
          intro init
          rw [List.foldl_cons, ih, textBody, String.append_assoc]
    exact general report_rows textBanner
  · intro other h
    rw [h]

/-- Claim C5, witness: the shape equality and determinism instantiated on
a concrete one-row sequence. -/
theorem C5_witness :
    renderTextReport [⟨"n", "u", "Valid", "ok", none⟩] =
      textBanner ++ textBody [⟨"n", "u", "Valid", "ok", none⟩] ∧
    renderTextReport [⟨"n", "u", "Valid", "ok", none⟩] =
      renderTextReport [⟨"n", "u", "Valid", "ok", none⟩] :=
  ⟨(C5_text_report_shape _).1,
   (C5_text_report_shape [⟨"n", "u", "Valid", "ok", none⟩]).2 _ rfl⟩

/-! ### Claim C7 -/

/-- Claim C7, counterexample: for the camera name consisting of a space
followed by the letter a, the code trims the leading space (safeName gives
a) while the sanitizer described by the claim, which has no trimming step,
gives an underscore followed by a; the produced screenshot path therefore
differs from the one the claim describes. -/
theorem C7_counterexample :
    (test_rtsp_stream " a" "rtsp://x" "shots"
        ⟨[⟨true, some 0⟩], "20250101_120000", HttpResult.response 200⟩).screenshot =
      some "shots/a_20250101_120000.jpg" ∧
    specSanitizeC7 " a" = "_a" ∧
    (test_rtsp_stream " a" "rtsp://x" "shots"
        ⟨[⟨true, some 0⟩], "20250101_120000", HttpResult.response 200⟩).screenshot ≠
      some (pathJoin "shots" (specSanitizeC7 " a" ++ "_" ++ "20250101_120000" ++ ".jpg")) := by
  refine ⟨by decide, by decide, by decide⟩

/-- Claim C7, amended: the screenshot filename of a successful probe has
the form sanitized-name, underscore, timestamp, .jpg extension, where the
sanitized name is obtained by replacing every character that is not
alphanumeric, space or underscore with an underscore, trimming leading and
trailing spaces, and then converting spaces to underscores; the filename
stem contains only alphanumeric characters and underscores. -/
theorem C7_amended_filename (name url dir : String) (env : ProbeEnv) (f : Frame)
    (h : (runReads env.reads).1 = some f) :
    (test_rtsp_stream name url dir env).screenshot =
      some (pathJoin dir (amendedSanitizeC7 name ++ "_" ++ env.timestamp ++ ".jpg")) ∧
    safeName name = amendedSanitizeC7 name ∧
    ∀ c ∈ (amendedSanitizeC7 name).data, pyIsAlnum c = true ∨ c = '_' := by
  have heq : safeName name = amendedSanitizeC7 name := rfl
  refine ⟨?_, heq, ?_⟩
  · rw [test_rtsp_stream_success h, heq]
  · intro c hc
    exact safeName_chars name c (by rw [heq]; exact hc)

/-- Claim C7, witness: the amended filename shape at a concrete successful
probe of a camera name containing a space and an exclamation mark. -/
theorem C7_witness :
    (test_rtsp_stream "Cam 1!" "rtsp://x" "shots"
        ⟨[⟨true, some 0⟩], "20250101_120000", HttpResult.response 200⟩).screenshot =
      some (pathJoin "shots" (amendedSanitizeC7 "Cam 1!" ++ "_" ++ "20250101_120000" ++ ".jpg")) ∧
    safeName "Cam 1!" = amendedSanitizeC7 "Cam 1!" :=
  ⟨(C7_amended_filename "Cam 1!" "rtsp://x" "shots"
      ⟨[⟨true, some 0⟩], "20250101_120000", HttpResult.response 200⟩ 0 rfl).1,
   (C7_amended_filename "Cam 1!" "rtsp://x" "shots"
      ⟨[⟨true, some 0⟩], "20250101_120000", HttpResult.response 200⟩ 0 rfl).2.1⟩

/-! ### Claim C4 -/

set_option maxRecDepth 16000 in
/-- Claim C4: when a probe fails, an address with an HTTP(S) scheme gets
notes containing the HTTP diagnostic annotation (the Not Found annotation
on 404, the Unauthorized annotation on 401, the raw status code in every
response case, and the underlying error when the HEAD check itself fails),
while a non-HTTP address gets notes containing the fixed no-additional-
details annotation; in all cases the status stays Not Valid. -/
theorem C4_http_diagnostics (dir : String) (env : ProbeEnv) (record : Record)
    (url : String) (hurl : resolveUrl record = some url)
    (hfail : (runReads env.reads).1 = none) :
    (processRecord dir env record).1.status = "Not Valid" ∧
    (lowerStartsWithHttp url = true →
      (env.httpHead = HttpResult.response 404 →
        strHasSub (processRecord dir env record).1.notes "Not Found (404).") ∧
      (env.httpHead = HttpResult.response 401 →
        strHasSub (processRecord dir env record).1.notes "Unauthorized (401).") ∧
      (∀ c, env.httpHead = HttpResult.response c →
        strHasSub (processRecord dir env record).1.notes
          (" HTTP status code: " ++ toString c ++ ".")) ∧
      (∀ e, env.httpHead = HttpResult.requestException e →
        strHasSub (processRecord dir env record).1.notes
          ("HTTP HEAD request failed with error: " ++ e))) ∧
    (lowerStartsWithHttp url = false →
      strHasSub (processRecord dir env record).1.notes
        "(No additional HTTP error details available for non-HTTP URLs)") := by
  have hnotes : (processRecord dir env record).1.notes =
      "Error: " ++ ("Failed to capture a frame from the stream." ++
        (if lowerStartsWithHttp url then get_http_error_details env.httpHead
         else " (No additional HTTP error details available for non-HTTP URLs)")) := by
    simp only [processRecord, hurl]
    rw [test_rtsp_stream_failure hfail]
    rfl
  have hstatus : (processRecord dir env record).1.status = "Not Valid" := by
    simp only [processRecord, hurl]
    rw [test_rtsp_stream_failure hfail]
    rfl
  refine ⟨hstatus, fun hhttp => ⟨?_, ?_, ?_, ?_⟩, fun hnon => ?_⟩
  · intro h404
    rw [hnotes, if_pos hhttp, h404]
    decide
  · intro h401
    rw [hnotes, if_pos hhttp, h401]
    decide
  · intro c hc
    rw [hnotes, if_pos hhttp, hc]
    by_cases h4 : c = 404
    · subst h4; decide
    · by_cases h1 : c = 401
      · subst h1; decide
      · simp only [get_http_error_details, if_neg h4, if_neg h1]
        exact strHasSub_append_left _ (strHasSub_suffix _ _)
  · intro e he
    rw [hnotes, if_pos hhttp, he]
    simp only [get_http_error_details]
    have hsplit : (" Additionally, HTTP HEAD request failed with error: " : String) =
        " Additionally, " ++ "HTTP HEAD request failed with error: " := by decide
    rw [hsplit, String.append_assoc]
    exact strHasSub_append_left _ (strHasSub_append_left _
      (strHasSub_append_left _ (strHasSub_self _)))
  · rw [hnotes, if_neg (by simp [hnon])]
    decide

/-- Claim C4, witness: a failing probe of an HTTP address with a 404 HEAD
response produces a Not Valid row whose notes contain the Not Found
annotation. -/
theorem C4_witness :
    (processRecord "d" ⟨[], "t", HttpResult.response 404⟩
        [("RTSP URL", "http://cam")]).1.status = "Not Valid" ∧
    strHasSub (processRecord "d" ⟨[], "t", HttpResult.response 404⟩
        [("RTSP URL", "http://cam")]).1.notes "Not Found (404)." :=
  ⟨(C4_http_diagnostics "d" ⟨[], "t", HttpResult.response 404⟩
      [("RTSP URL", "http://cam")] "http://cam" (by decide) rfl).1,
   ((C4_http_diagnostics "d" ⟨[], "t", HttpResult.response 404⟩
      [("RTSP URL", "http://cam")] "http://cam" (by decide) rfl).2.1 (by decide)).1 rfl⟩

theorem renderScreenshot_ok {embed : String → Except PyExc Unit}
    (hother : ∀ p m, embed p ≠ Except.error (PyExc.otherError m)) (row : ReportRow) :
    ∃ out, renderScreenshot embed row = .ok out ∧
      DocItem.hline ∉ out ∧
      ∀ p m, row.screenshot = some p → p ≠ "" →
        (embed p = Except.error (PyExc.runtimeError m) ∨
         embed p = Except.error (PyExc.osError m)) →
        DocItem.textCell ("Error embedding screenshot: " ++ m) ∈ out := by
  cases hs : row.screenshot with
  | none =>
      refine ⟨[], by simp [renderScreenshot, hs], by simp, ?_⟩
      intro p m hp
      exact absurd hp (by simp)
  | some p =>
      by_cases hp : p = ""
      · subst hp
        refine ⟨[], by simp [renderScreenshot, hs], by simp, ?_⟩
        intro q m hq hne
        injection hq with h
        subst h
        exact absurd rfl hne
      · cases he : embed p with
        | ok u =>
            refine ⟨[DocItem.image p], by simp [renderScreenshot, hs, hp, he], by simp, ?_⟩
            intro q m hq hne hfail
            injection hq with h
            subst h
            rcases hfail with hf | hf <;> rw [he] at hf <;> exact absurd hf (by simp)
        | error e =>
            cases e with
            | runtimeError m0 =>
                refine ⟨[DocItem.textCell ("Error embedding screenshot: " ++ m0)],
                  by simp [renderScreenshot, hs, hp, he], by simp, ?_⟩
                intro q m hq hne hfail
                injection hq with h
                subst h
                rcases hfail with hf | hf <;> rw [he] at hf
                · injection hf with h2
                  injection h2 with h3
                  subst h3
                  simp
                · exact absurd hf (by simp)
            | osError m0 =>
                refine ⟨[DocItem.textCell ("Error embedding screenshot: " ++ m0)],
                  by simp [renderScreenshot, hs, hp, he], by simp, ?_⟩
                intro q m hq hne hfail
                injection hq with h
                subst h
                rcases hfail with hf | hf <;> rw [he] at hf
                · exact absurd hf (by simp)
                · injection hf with h2
                  injection h2 with h3
                  subst h3
                  simp
            | otherError m0 => exact absurd he (hother p m0)

theorem renderPdfRow_ok {embed : String → Except PyExc Unit}
    (hother : ∀ p m, embed p ≠ Except.error (PyExc.otherError m)) (row : ReportRow) :
    ∃ items, renderPdfRow embed row = .ok items ∧
      items.count DocItem.hline = 1 ∧
      ∀ p m, row.screenshot = some p → p ≠ "" →
        (embed p = Except.error (PyExc.runtimeError m) ∨
         embed p = Except.error (PyExc.osError m)) →
        DocItem.textCell ("Error embedding screenshot: " ++ m) ∈ items := by
  obtain ⟨out, hout, hnohl, hmem⟩ := renderScreenshot_ok hother row
  refine ⟨[DocItem.textCell ("Camera Name: " ++ row.cameraName),
           DocItem.textCell ("Provided URL: " ++ row.providedURL),
           DocItem.textCell ("Status: " ++ row.status),
           DocItem.textCell ("Notes: " ++ row.notes)] ++ out ++ [DocItem.hline],
    ?_, ?_, ?_⟩
  · simp [renderPdfRow, hout]
  · rw [List.count_append, List.count_append,
      List.count_eq_zero.mpr hnohl,
      List.count_eq_zero.mpr (by simp :
        DocItem.hline ∉ [DocItem.textCell ("Camera Name: " ++ row.cameraName),
          DocItem.textCell ("Provided URL: " ++ row.providedURL),
          DocItem.textCell ("Status: " ++ row.status),
          DocItem.textCell ("Notes: " ++ row.notes)])]
    simp
  · intro p m hp hne hf
    have := hmem p m hp hne hf
    simp [List.mem_append, this]

theorem renderPdfRows_ok {embed : String → Except PyExc Unit}
    (hother : ∀ p m, embed p ≠ Except.error (PyExc.otherError m)) :
    ∀ rows : List ReportRow, ∃ doc, renderPdfRows embed rows = .ok doc ∧
      doc.count DocItem.hline = rows.length ∧
      ∀ row ∈ rows, ∀ p m, row.screenshot = some p → p ≠ "" →
        (embed p = Except.error (PyExc.runtimeError m) ∨
         embed p = Except.error (PyExc.osError m)) →
        DocItem.textCell ("Error embedding screenshot: " ++ m) ∈ doc
  | [] => ⟨[], by simp [renderPdfRows], by simp, by simp⟩
  | row :: rest => by
      obtain ⟨items, hitems, hc1, hm1⟩ := renderPdfRow_ok hother row
      obtain ⟨doc, hdoc, hc2, hm2⟩ := renderPdfRows_ok hother rest
      refine ⟨items ++ doc, ?_, ?_, ?_⟩
      · simp only [renderPdfRows, hitems, hdoc]
        rfl
      · rw [List.count_append, hc1, hc2, List.length_cons]
        omega
      · intro r hr p m hp hne hf
        rcases List.mem_cons.mp hr with rfl | hr'
        · exact List.mem_append_left _ (hm1 p m hp hne hf)
        · exact List.mem_append_right _ (hm2 r hr' p m hp hne hf)

/-! ### Claim C6 -/

/-- Claim C6: document rendering never raises because a referenced
screenshot file is missing (OSError) or corrupt (RuntimeError): the
failure is caught per row, a diagnostic line replaces the image, and every
row of the sequence is still rendered (one separator rule per row). -/
theorem C6_pdf_never_aborts (embed : String → Except PyExc Unit)
    (report_rows : List ReportRow)
    (hother : ∀ p m, embed p ≠ Except.error (PyExc.otherError m)) :
    ∃ doc, generate_pdf_report embed report_rows = .ok doc ∧
      doc.count DocItem.hline = report_rows.length ∧
      ∀ row ∈ report_rows, ∀ p m, row.screenshot = some p → p ≠ "" →
        (embed p = Except.error (PyExc.runtimeError m) ∨
         embed p = Except.error (PyExc.osError m)) →
        DocItem.textCell ("Error embedding screenshot: " ++ m) ∈ doc := by
  obtain ⟨doc, hdoc, hc, hm⟩ := renderPdfRows_ok hother report_rows
  refine ⟨DocItem.textCell "Camera Connection Status Report" :: doc, ?_, ?_, ?_⟩
  · simp only [generate_pdf_report, hdoc]
    rfl
  · rw [List.count_cons, hc]
    simp
  · intro r hr p m hp hne hf
    exact List.mem_cons_of_mem _ (hm r hr p m hp hne hf)

/-- Claim C6, witness: an embed that always fails with OSError (a missing
file) still renders a one-row document containing the diagnostic line. -/
theorem C6_witness :
    ∃ doc, generate_pdf_report (fun _ => Except.error (PyExc.osError "broken"))
        [⟨"n", "u", "Valid", "ok", some "shots/x.jpg"⟩] = .ok doc ∧
      doc.count DocItem.hline = 1 ∧
      DocItem.textCell ("Error embedding screenshot: " ++ "broken") ∈ doc := by
  obtain ⟨doc, h1, h2, h3⟩ :=
    C6_pdf_never_aborts (fun _ => Except.error (PyExc.osError "broken"))
      [⟨"n", "u", "Valid", "ok", some "shots/x.jpg"⟩]
      (by intro p m h; simp at h)
  exact ⟨doc, h1, h2,
    h3 ⟨"n", "u", "Valid", "ok", some "shots/x.jpg"⟩ (by simp) "shots/x.jpg" "broken"
      rfl (by simp) (Or.inr rfl)⟩
